import Mathlib

/-!
Verification development for the gradr-agent repository.

The repository has two source files:
* `gradr-mcp/server.py` — an MCP tool server with four tools
  (`get_resource_from_gcs`, `parse_questions`, `parse_marking_guide`,
  `normalize_answers`); the last three are pure string functions and are
  embedded directly below; the first is embedded over an explicit
  environment record standing for the HTTP client and the GenAI client.
* `app/agent.py` — declarative configuration of a grading pipeline
  (agents, a retry policy, a loop construct and a sequential pipeline).
  The configuration values are embedded verbatim; the execution
  semantics of the orchestration framework (retry loop, loop executor,
  sequential executor, validation and aggregation behaviour) are not
  code in the repository, so they are modelled from the specification
  where a claim needs them; each such definition is marked
  `Modelled from the spec`.

Python strings are embedded through their character lists; `str.strip`,
`str.lower` and `str.split` are modelled over the ASCII fragment that
the repository data exercises.
-/

namespace Gradr

/-! ## Python string primitives (ASCII fragment) -/

/-- Embeds the whitespace test used by Python `str.strip()`
(restricted to the ASCII whitespace characters). -/
def pySpace (c : Char) : Bool :=
  c == ' ' || c == '\t' || c == '\n' || c == '\r' || c == '\x0B' || c == '\x0C'

/-- The uppercase-to-lowercase mapping of the ASCII letters. -/
def lowerTable : List (Char × Char) :=
  [('A', 'a'), ('B', 'b'), ('C', 'c'), ('D', 'd'), ('E', 'e'), ('F', 'f'),
   ('G', 'g'), ('H', 'h'), ('I', 'i'), ('J', 'j'), ('K', 'k'), ('L', 'l'),
   ('M', 'm'), ('N', 'n'), ('O', 'o'), ('P', 'p'), ('Q', 'q'), ('R', 'r'),
   ('S', 's'), ('T', 't'), ('U', 'u'), ('V', 'v'), ('W', 'w'), ('X', 'x'),
   ('Y', 'y'), ('Z', 'z')]

/-- Embeds Python `str.lower()` on a single character
(restricted to the ASCII letters, which is the fragment the
repository data exercises). -/
def asciiLower (c : Char) : Char := (lowerTable.lookup c).getD c

/-- Embeds Python `str.strip()` on the character list of a string:
drop leading and trailing whitespace. -/
def stripChars (l : List Char) : List Char :=
  ((l.dropWhile pySpace).reverse.dropWhile pySpace).reverse

/-- Embeds Python `str.strip()`. -/
def pyStrip (s : String) : String := String.mk (stripChars s.data)

/-- Embeds Python `str.lower()` (ASCII fragment). -/
def pyLower (s : String) : String := String.mk (s.data.map asciiLower)

/-- Embeds Python `text.split(sep)` for the one-character separator
`"\n"`: splitting a character list at every newline, keeping empty
pieces, as Python `str.split` does with an explicit separator. -/
def splitLines : List Char → List (List Char)
  | [] => [[]]
  | c :: rest =>
    match splitLines rest with
    | [] => [[]]
    | l :: ls => if c = '\n' then [] :: l :: ls else (c :: l) :: ls

/-- Embeds Python `text.split("\n")`. -/
def pySplit (s : String) : List String := (splitLines s.data).map String.mk

/-! ## gradr-mcp/server.py : parse_questions -/

/-- One entry of the `questions` array built by `parse_questions`. -/
structure Question where
  question_id : String
  text : String
deriving DecidableEq

/-- The JSON document returned by `parse_questions`
(the `json_string` serialization layer is modelled by the record itself). -/
structure QuestionsDoc where
  ok : Bool
  questions : List Question
  count : Nat
deriving DecidableEq

/-- Embeds `parse_questions` from gradr-mcp/server.py:
`lines = [l.strip() for l in text.split("\n") if l.strip()]`, then one
entry per line with identifier `q{idx+1}`, and `count = len(questions)`. -/
def parse_questions (text : String) : QuestionsDoc :=
  let lines := ((pySplit text).filter (fun l => pyStrip l != "")).map pyStrip
  let questions := lines.enum.map
    (fun p => { question_id := "q" ++ toString (p.1 + 1), text := p.2 })
  { ok := true, questions := questions, count := questions.length }

/-- The non-empty stripped lines of the input, in input order: the list
that the claim about `parse_questions` describes (map strip, then keep
the non-empty results). -/
def nonEmptyStrippedLines (text : String) : List String :=
  ((pySplit text).map pyStrip).filter (fun l => l != "")

/-! ## gradr-mcp/server.py : parse_marking_guide -/

/-- One rubric item of the fixed rubric built by `parse_marking_guide`. -/
structure RubricItem where
  label : String
  points : Nat
deriving DecidableEq

/-- The rubric record built by `parse_marking_guide`. -/
structure Rubric where
  rubric_items : List RubricItem
  max_score : Nat
deriving DecidableEq

/-- The JSON document returned by `parse_marking_guide`. -/
structure MarkingGuideDoc where
  ok : Bool
  rubric : Rubric
deriving DecidableEq

/-- Embeds `parse_marking_guide` from gradr-mcp/server.py: the function
ignores its input text and returns a fixed mock rubric. -/
def parse_marking_guide (_text : String) : MarkingGuideDoc :=
  { ok := true,
    rubric :=
      { rubric_items :=
          [{ label := "accuracy", points := 2 },
           { label := "clarity", points := 1 },
           { label := "completeness", points := 2 }],
        max_score := 5 } }

/-! ## gradr-mcp/server.py : normalize_answers -/

/-- The JSON document returned by `normalize_answers`. -/
structure NormalizedDoc where
  ok : Bool
  normalized : String
deriving DecidableEq

/-- Embeds `normalize_answers` from gradr-mcp/server.py:
`cleaned = text.strip().lower()`. -/
def normalize_answers (text : String) : NormalizedDoc :=
  { ok := true, normalized := pyLower (pyStrip text) }

/-! ## gradr-mcp/server.py : get_resource_from_gcs -/

/-- Raw document bytes fetched over HTTP. -/
abbrev Bytes := List Nat

/-- The environment of `get_resource_from_gcs`: the `httpx` HTTP client
and the GenAI client.  `generateContent` takes the optional argument
tuple (model name, document bytes, prompt); the value `none` stands for
a call made with no arguments at all, as on line 44 of server.py. -/
structure GenAIEnv where
  httpGet : String → Except String Bytes
  generateContent : Option (String × Bytes × String) → Except String String

/-- The extraction prompt of `get_resource_from_gcs` (line 29). -/
def EXTRACTION_PROMPT : String :=
  "You are a helpful search engine. Extract and return the complete text content from this document. Preserve all important information and structure."

/-- Embeds `get_resource_from_gcs` from gradr-mcp/server.py: fetch the
document, call `generate_content` with the document and the extraction
prompt, then rebind `response` to a second `generate_content()` call
made WITH NO ARGUMENTS (line 44 of the source), and return the text of
that second response. -/
def get_resource_from_gcs (env : GenAIEnv) (bucket_uri : String) :
    Except String String := do
  let doc_data ← env.httpGet bucket_uri
  let _response ← env.generateContent (some ("gemini-2.5-flash", doc_data, EXTRACTION_PROMPT))
  env.generateContent none

/-! ## app/agent.py : configuration values (embedded verbatim)

The prompt strings and the tool lists of the agents are natural-language
data not used by any claim and are omitted from the records. -/

/-- Embeds `types.HttpRetryOptions` as configured in app/agent.py. -/
structure HttpRetryOptions where
  attempts : Nat
  exp_base : Nat
  initial_delay : Nat
  http_status_codes : List Nat
deriving DecidableEq

/-- Embeds `retry_config` from app/agent.py lines 77-82. -/
def retry_config : HttpRetryOptions :=
  { attempts := 5
    exp_base := 7
    initial_delay := 1
    http_status_codes := [429, 500, 503, 504] }

/-- Embeds a `Gemini(model=..., retry_options=...)` value. -/
structure GeminiCfg where
  model : String
  retry_options : Option HttpRetryOptions
deriving DecidableEq

/-- Embeds an `Agent(...)` declaration: name, model, declared input
slots and the declared output slot. -/
structure AgentConfig where
  name : String
  model : GeminiCfg
  input_keys : List String
  output_key : String
deriving DecidableEq

/-- Embeds `online_answers_agent` (app/agent.py lines 104-110). -/
def online_answers_agent : AgentConfig :=
  { name := "OnlineAnswersAgent"
    model := { model := "gemini-2.5-flash-lite", retry_options := some retry_config }
    input_keys := []
    output_key := "online_answers" }

/-- Embeds `summarizer_agent` (app/agent.py lines 113-119). -/
def summarizer_agent : AgentConfig :=
  { name := "SummarizerAgent"
    model := { model := "gemini-2.5-flash-lite", retry_options := some retry_config }
    input_keys := ["online_answers"]
    output_key := "final_summary" }

/-- Embeds `question_grader_agent` (app/agent.py lines 122-129). -/
def question_grader_agent : AgentConfig :=
  { name := "QuestionGraderAgent"
    model := { model := "gemini-2.5-flash", retry_options := some retry_config }
    input_keys := ["question", "student_answer", "rubric", "final_summary", "external_evidence"]
    output_key := "graded_question" }

/-- Embeds a `LoopAgent(...)` declaration. -/
structure LoopConfig where
  name : String
  sub_agent : AgentConfig
  loop_input_key : String
  loop_output_key : String
deriving DecidableEq

/-- Embeds `loop_grader` (app/agent.py lines 132-137). -/
def loop_grader : LoopConfig :=
  { name := "LoopOverQuestions"
    sub_agent := question_grader_agent
    loop_input_key := "questions"
    loop_output_key := "graded_questions" }

/-- Embeds `referee_agent` (app/agent.py lines 140-146). -/
def referee_agent : AgentConfig :=
  { name := "RefereeAgent"
    model := { model := "gemini-2.5-flash", retry_options := some retry_config }
    input_keys := ["graded_questions", "rubric", "student_answers", "final_summary"]
    output_key := "referee_report" }

/-- Embeds `final_aggregator` (app/agent.py lines 149-159). -/
def final_aggregator : AgentConfig :=
  { name := "FinalAggregator"
    model := { model := "gemini-2.5-flash-lite", retry_options := some retry_config }
    input_keys := ["graded_questions", "referee_report", "human_decision"]
    output_key := "final_payload" }

/-- A member of a `SequentialAgent` stage list: either a plain LLM
agent or the loop construct. -/
inductive StageCfg where
  | llm (a : AgentConfig)
  | loop (l : LoopConfig)
deriving DecidableEq

/-- The name of a stage. -/
def StageCfg.stageName : StageCfg → String
  | StageCfg.llm a => a.name
  | StageCfg.loop l => l.name

/-- The single declared output slot of a stage. -/
def StageCfg.outputKey : StageCfg → String
  | StageCfg.llm a => a.output_key
  | StageCfg.loop l => l.loop_output_key

/-- Embeds a `SequentialAgent(...)` declaration. -/
structure SequentialAgentCfg where
  name : String
  sub_agents : List StageCfg
deriving DecidableEq

/-- Embeds `root_agent` (app/agent.py lines 161-170): the fixed,
ordered stage list of the grading pipeline. -/
def root_agent : SequentialAgentCfg :=
  { name := "GradingPipeline"
    sub_agents :=
      [StageCfg.llm online_answers_agent,
       StageCfg.llm summarizer_agent,
       StageCfg.loop loop_grader,
       StageCfg.llm referee_agent,
       StageCfg.llm final_aggregator] }

/-! ## Retry controller semantics -/

/-- Outcome of one external call attempt: a response body or an HTTP
failure status code. -/
inductive CallResult where
  | success (body : String)
  | failure (code : Nat)
deriving DecidableEq

/-- Observable trace of one retried invocation: how many attempts were
made, the backoff delay slept before each retry (in order, in seconds),
and the terminal outcome. -/
structure RetryTrace where
  attemptsMade : Nat
  delays : List Nat
  outcome : CallResult
deriving DecidableEq

/-- Modelled from the spec: the retry loop of the Retry/Backoff
Controller (spec 4.4) is framework code not present in this repository;
only its policy `retry_config` is.  `call i` is the outcome of the
attempt with 0-based index `i`; the second argument counts the attempts
still allowed.  On a failure whose code is in the retryable set, with
attempts remaining, sleep `initial_delay * exp_base ^ attempt_index`
and retry; otherwise the failure is terminal. -/
def retryFrom (p : HttpRetryOptions) (call : Nat → CallResult) :
    Nat → Nat → RetryTrace
  | _, 0 => { attemptsMade := 0, delays := [], outcome := CallResult.failure 0 }
  | idx, remaining + 1 =>
    match call idx with
    | CallResult.success b =>
        { attemptsMade := 1, delays := [], outcome := CallResult.success b }
    | CallResult.failure code =>
        if code ∈ p.http_status_codes ∧ 0 < remaining then
          let t := retryFrom p call (idx + 1) remaining
          { attemptsMade := t.attemptsMade + 1
            delays := p.initial_delay * p.exp_base ^ idx :: t.delays
            outcome := t.outcome }
        else { attemptsMade := 1, delays := [], outcome := CallResult.failure code }

/-- Modelled from the spec: run one invocation under a retry policy,
starting at attempt index 0 with the full attempt budget. -/
def runWithRetry (p : HttpRetryOptions) (call : Nat → CallResult) : RetryTrace :=
  retryFrom p call 0 p.attempts

/-! ## Loop executor semantics -/

/-- One per-item outcome of the loop body: a graded result or a
recorded per-item error. -/
inductive ItemResult (β : Type) where
  | graded (b : β)
  | failed (msg : String)
deriving DecidableEq

/-- The loop body applied to the item at position `j` of the input
sequence. -/
def gradeAt {α β : Type} (body : α → ItemResult β) (items : List α) (j : Nat) :
    ItemResult β :=
  match items[j]? with
  | some a => body a
  | none => ItemResult.failed "index out of range"

/-- Modelled from the spec: the Loop Executor semantics (spec 4.3, 5)
are framework code not present in this repository; only the
`loop_grader` configuration is.  Items may complete in any order
(`completionOrder` lists the positions in completion order); the output
sequence is reassembled by input position, one entry per input item. -/
def runLoop {α β : Type} (body : α → ItemResult β) (items : List α)
    (completionOrder : List Nat) : List (ItemResult β) :=
  let completed := completionOrder.map (fun j => (j, gradeAt body items j))
  (List.range items.length).map
    (fun i => (completed.lookup i).getD (ItemResult.failed "item not completed"))

/-! ## Sequential executor semantics -/

/-- Observable scheduling events of a pipeline run. -/
inductive PipeEvent where
  | start (agent : String)
  | finish (agent : String)
deriving DecidableEq

/-- Modelled from the spec: the Sequential Executor (spec 4.2, 5) is
framework code not present in this repository; only the `root_agent`
stage list is.  It runs the stages strictly one after another, each
stage reading the context built so far and appending its single
declared output slot; the event trace records starts and finishes.
`behavior` gives the (opaque) value a stage computes from the context
and is universally quantified in the theorems. -/
def runSeq {V : Type} (behavior : String → List (String × V) → V) :
    List StageCfg → List (String × V) → List (String × V) × List PipeEvent
  | [], ctx => (ctx, [])
  | s :: rest, ctx =>
    let v := behavior s.stageName ctx
    let r := runSeq behavior rest (ctx ++ [(s.outputKey, v)])
    (r.1, PipeEvent.start s.stageName :: PipeEvent.finish s.stageName :: r.2)

/-! ## Validation / correction stage semantics -/

/-- One graded question, as produced by the grading loop. -/
structure GradedQuestion where
  question_id : String
  score : ℚ
  max_score : ℚ
  justification : String
  confidence : ℚ
deriving DecidableEq

/-- One recorded validation issue, referencing a question identifier. -/
structure Issue where
  question_id : String
  problem : String
deriving DecidableEq

/-- The validation report emitted by the referee stage. -/
structure ValidationReport where
  ok : Bool
  issues : List Issue
  corrected : List GradedQuestion
deriving DecidableEq

/-- Clamp a value into the interval from `lo` to `hi`. -/
def clampQ (lo hi x : ℚ) : ℚ :=
  if x < lo then lo else if hi < x then hi else x

/-- Modelled from the spec: clamp one entry (spec 4.6 structural check,
default clamp-and-flag policy): score clamped into [0, max_score],
confidence clamped into [0, 1]. -/
def clampEntry (g : GradedQuestion) : GradedQuestion :=
  { g with
    score := clampQ 0 g.max_score g.score
    confidence := clampQ 0 1 g.confidence }

/-- Modelled from the spec: the issues recorded for one entry whose raw
values violate the bounds, each referencing the question identifier. -/
def entryIssues (g : GradedQuestion) : List Issue :=
  (if g.score < 0 ∨ g.max_score < g.score then
      [{ question_id := g.question_id, problem := "score out of range" }]
   else []) ++
  (if g.confidence < 0 ∨ 1 < g.confidence then
      [{ question_id := g.question_id, problem := "confidence out of range" }]
   else [])

/-- Modelled from the spec: the Validation/Correction stage (spec 4.6)
is delegated to a prompt (REFEREE_PROMPT, app/agent.py lines 69-75) and
is not code in this repository.  It checks every entry, records issues,
emits clamped corrected entries, and sets `ok` exactly when the issue
list is empty. -/
def validateGraded (entries : List GradedQuestion) : ValidationReport :=
  let issues := (entries.map entryIssues).flatten
  { ok := issues.isEmpty, issues := issues, corrected := entries.map clampEntry }

/-! ## Aggregator semantics -/

/-- The aggregate statistics of the final payload
(`aggregated_stats (avg_score, low_confidence_items)` in the
final_aggregator prompt). -/
structure AggregateStats where
  avg_score : ℚ
  low_confidence_items : Nat
deriving DecidableEq

/-- The final payload (run metadata `exam_id` and `generated_at` are
clock/identifier inputs outside the aggregation function and omitted). -/
structure FinalPayload where
  graded_questions : List GradedQuestion
  aggregated_stats : AggregateStats
deriving DecidableEq

/-- Modelled from the spec: the fixed low-confidence threshold (spec 3,
4.7; its numeric value is given nowhere in the repository, any fixed
value satisfies the claims). -/
def LOW_CONFIDENCE_THRESHOLD : ℚ := mkRat 1 2

/-- An optional external human decision: overrides the entry with the
matching question identifier (spec 4.7). -/
structure HumanDecision where
  question_id : String
  override : GradedQuestion
deriving DecidableEq

/-- Modelled from the spec: apply the optional human decision by
question identifier (spec 4.7). -/
def applyDecision (gs : List GradedQuestion) : Option HumanDecision → List GradedQuestion
  | none => gs
  | some d => gs.map (fun g => if g.question_id = d.question_id then d.override else g)

/-- Modelled from the spec: the aggregation (spec 4.7) is delegated to
a prompt (app/agent.py lines 152-156) and is not code in this
repository.  Merge the corrected entries with the optional human
decision and compute the aggregate statistics: mean score and the count
of entries whose confidence is below the fixed threshold. -/
def final_aggregate (gs : List GradedQuestion) (_report : ValidationReport)
    (decision : Option HumanDecision) : FinalPayload :=
  let entries := applyDecision gs decision
  { graded_questions := entries
    aggregated_stats :=
      { avg_score := (entries.map GradedQuestion.score).sum / (entries.length : ℚ)
        low_confidence_items :=
          (entries.filter (fun g => g.confidence < LOW_CONFIDENCE_THRESHOLD)).length } }

/-! ## Concrete values used by the witnesses -/

/-- A concrete environment for `get_resource_from_gcs` in which the
fetch and the extraction both succeed, and a `generate_content` call
made with no arguments fails the way the Python client does (its
required arguments are missing). -/
def gcsEnvExample : GenAIEnv :=
  { httpGet := fun _ => Except.ok [37, 80, 68, 70]
    generateContent := fun args =>
      match args with
      | some _ => Except.ok "extracted document text"
      | none => Except.error "TypeError: missing required arguments" }

/-- A concrete graded-question list containing one entry that violates
the score bound (score 7 of max 5), for the validation witness. -/
def gradedExample : List GradedQuestion :=
  [{ question_id := "q1", score := 7, max_score := 5,
     justification := "all rubric points satisfied", confidence := mkRat 1 2 }]

/-! ## Helper lemmas about the Python string primitives -/

theorem lookup_mem {l : List (Char × Char)} {c d : Char}
    (h : l.lookup c = some d) : (c, d) ∈ l := by
  induction l with
  | nil => simp at h
  | cons p t ih =>
    rcases p with ⟨k, v⟩
    rcases eq_or_ne c k with rfl | hck
    · simp only [List.lookup_cons, beq_self_eq_true, Option.some_inj] at h
      subst h
      exact List.mem_cons_self _ _
    · have hb : (c == k) = false := by simp [hck]
      simp only [List.lookup_cons, hb] at h
      exact List.mem_cons_of_mem _ (ih h)

theorem lowerTable_no_space : ∀ p ∈ lowerTable, pySpace p.1 = false ∧ pySpace p.2 = false := by
  decide

theorem lowerTable_image_fix : ∀ p ∈ lowerTable, lowerTable.lookup p.2 = none := by
  decide

theorem pySpace_asciiLower (c : Char) : pySpace (asciiLower c) = pySpace c := by
  unfold asciiLower
  cases h : lowerTable.lookup c with
  | none => rfl
  | some d =>
    have hp := lowerTable_no_space (c, d) (lookup_mem h)
    simp only [Option.getD_some]
    rw [hp.1, hp.2]

theorem asciiLower_idem (c : Char) : asciiLower (asciiLower c) = asciiLower c := by
  unfold asciiLower
  cases h : lowerTable.lookup c with
  | none => simp [h]
  | some d =>
    have hfix := lowerTable_image_fix (c, d) (lookup_mem h)
    simp only [Option.getD_some]
    rw [hfix]
    rfl

theorem map_asciiLower_idem (l : List Char) :
    (l.map asciiLower).map asciiLower = l.map asciiLower := by
  induction l with
  | nil => rfl
  | cons c t ih => simp [asciiLower_idem, ih]

theorem dropWhile_map_asciiLower (l : List Char) :
    (l.map asciiLower).dropWhile pySpace = (l.dropWhile pySpace).map asciiLower := by
  induction l with
  | nil => rfl
  | cons c t ih =>
    simp only [List.map_cons, List.dropWhile_cons, pySpace_asciiLower]
    cases hc : pySpace c <;> simp [hc, ih]

theorem head?_dropWhile_not (p : Char → Bool) (l : List Char) :
    ∀ c, (l.dropWhile p).head? = some c → p c = false := by
  induction l with
  | nil => intro c h; simp [List.dropWhile] at h
  | cons a t ih =>
    intro c h
    rw [List.dropWhile_cons] at h
    by_cases ha : p a = true
    · rw [if_pos ha] at h
      exact ih c h
    · rw [if_neg ha] at h
      simp only [List.head?_cons, Option.some.injEq] at h
      subst h
      simpa using ha

theorem dropWhile_getLast? (p : Char → Bool) (l : List Char) :
    l.dropWhile p ≠ [] → (l.dropWhile p).getLast? = l.getLast? := by
  induction l with
  | nil => intro h; simp [List.dropWhile] at h
  | cons a t ih =>
    intro h
    rw [List.dropWhile_cons] at h ⊢
    by_cases ha : p a = true
    · rw [if_pos ha] at h ⊢
      rcases t with _ | ⟨b, t2⟩
      · simp [List.dropWhile] at h
      · rw [ih h, List.getLast?_cons_cons]
    · rw [if_neg ha]

theorem dropWhile_eq_self_of_head (p : Char → Bool) (l : List Char)
    (h : ∀ c, l.head? = some c → p c = false) : l.dropWhile p = l := by
  cases l with
  | nil => rfl
  | cons a t =>
    have ha := h a rfl
    rw [List.dropWhile_cons, if_neg (by simp [ha])]

theorem stripChars_head_not (l : List Char) :
    ∀ c, (stripChars l).head? = some c → pySpace c = false := by
  intro c h
  unfold stripChars at h
  rw [List.head?_reverse] at h
  have hne : (l.dropWhile pySpace).reverse.dropWhile pySpace ≠ [] := by
    intro he; rw [he] at h; simp at h
  rw [dropWhile_getLast? pySpace _ hne, List.getLast?_reverse] at h
  exact head?_dropWhile_not pySpace l c h

theorem stripChars_getLast_not (l : List Char) :
    ∀ c, (stripChars l).getLast? = some c → pySpace c = false := by
  intro c h
  unfold stripChars at h
  rw [List.getLast?_reverse] at h
  exact head?_dropWhile_not pySpace _ c h

theorem stripChars_fixpoint (l : List Char)
    (h1 : ∀ c, l.head? = some c → pySpace c = false)
    (h2 : ∀ c, l.getLast? = some c → pySpace c = false) :
    stripChars l = l := by
  unfold stripChars
  rw [dropWhile_eq_self_of_head pySpace l h1,
    dropWhile_eq_self_of_head pySpace l.reverse
      (fun c hc => h2 c (by rwa [List.head?_reverse] at hc)),
    List.reverse_reverse]

theorem stripChars_idem (l : List Char) : stripChars (stripChars l) = stripChars l :=
  stripChars_fixpoint _ (stripChars_head_not l) (stripChars_getLast_not l)

theorem stripChars_map_asciiLower (l : List Char) :
    stripChars (l.map asciiLower) = (stripChars l).map asciiLower := by
  unfold stripChars
  rw [dropWhile_map_asciiLower l, ← List.map_reverse, dropWhile_map_asciiLower,
    ← List.map_reverse]

theorem normalizedChars_idem (l : List Char) :
    (stripChars ((stripChars l).map asciiLower)).map asciiLower =
      (stripChars l).map asciiLower := by
  rw [stripChars_map_asciiLower, stripChars_idem, map_asciiLower_idem]

theorem clampQ_mem (lo hi x : ℚ) (h : lo ≤ hi) :
    lo ≤ clampQ lo hi x ∧ clampQ lo hi x ≤ hi := by
  unfold clampQ
  split_ifs with h1 h2
  · exact ⟨le_refl lo, h⟩
  · exact ⟨h, le_refl hi⟩
  · exact ⟨le_of_not_lt h1, le_of_not_lt h2⟩

theorem filter_strip_comm (xs : List String) :
    (xs.filter (fun l => pyStrip l != "")).map pyStrip =
      (xs.map pyStrip).filter (fun l => l != "") := by
  induction xs with
  | nil => rfl
  | cons a t ih =>
    simp only [List.filter_cons, List.map_cons]
    cases h : (pyStrip a != "") <;> simp [h, ih]

/-! ## Claim theorems: gradr-mcp/server.py -/

/-- C7: the claim says `get_resource_from_gcs` returns the extracted
text of the fetched document whenever the fetch and the extraction
succeed.  The code does not: after the extraction call, line 44 of
server.py rebinds `response` to a second `generate_content()` call made
with no arguments, and returns the text of that second response, so the
returned value is whatever the argument-less call produces (at runtime,
a missing-argument failure), never the extraction result.  This theorem
evaluates the embedded code under the success hypotheses and shows the
result is exactly the outcome of the argument-less call. -/
theorem get_resource_from_gcs_discards_extraction (env : GenAIEnv) (uri : String)
    (d : Bytes) (t : String)
    (hfetch : env.httpGet uri = Except.ok d)
    (hextract : env.generateContent
      (some ("gemini-2.5-flash", d, EXTRACTION_PROMPT)) = Except.ok t) :
    get_resource_from_gcs env uri = env.generateContent none := by
  simp [get_resource_from_gcs, hfetch, hextract, Bind.bind, Except.bind]

/-- Witness for C7 at a concrete environment and the docstring URI. -/
theorem get_resource_from_gcs_discards_extraction_witness :
    get_resource_from_gcs gcsEnvExample
      "gs://grdr/crawford_university/fiewor_john/mth_101/assignment/question" =
      Except.error "TypeError: missing required arguments" :=
  get_resource_from_gcs_discards_extraction gcsEnvExample
    "gs://grdr/crawford_university/fiewor_john/mth_101/assignment/question"
    [37, 80, 68, 70] "extracted document text" rfl rfl

/-- C8: `parse_questions` returns ok = true, one entry per non-empty
stripped input line in input-line order, where entry i (0-based) has
identifier `q(i+1)` and text equal to that stripped line, and count
equals the length of the questions list.  Positions past the end agree
as well (both sides are none). -/
theorem parse_questions_spec (text : String) :
    (parse_questions text).ok = true ∧
    (parse_questions text).count = (parse_questions text).questions.length ∧
    (parse_questions text).questions.length = (nonEmptyStrippedLines text).length ∧
    ∀ i : Nat,
      (parse_questions text).questions.get? i =
        ((nonEmptyStrippedLines text).get? i).map
          (fun l => { question_id := "q" ++ toString (i + 1), text := l }) := by
  have hq : (parse_questions text).questions =
      (nonEmptyStrippedLines text).enum.map
        (fun p => { question_id := "q" ++ toString (p.1 + 1), text := p.2 }) := by
    simp only [parse_questions, nonEmptyStrippedLines, filter_strip_comm]
  refine ⟨rfl, rfl, ?_, ?_⟩
  · rw [hq]; simp
  · intro i
    rw [hq, List.get?_map, List.get?_enum]
    cases (nonEmptyStrippedLines text).get? i <;> rfl

/-- C9: `parse_marking_guide` ignores its input: any two inputs give
identical output, the output has ok = true, the three rubric item point
values total 5, and max_score is 5. -/
theorem parse_marking_guide_constant (t1 t2 : String) :
    parse_marking_guide t1 = parse_marking_guide t2 ∧
    (parse_marking_guide t1).ok = true ∧
    ((parse_marking_guide t1).rubric.rubric_items.map RubricItem.points).sum = 5 ∧
    (parse_marking_guide t1).rubric.max_score = 5 ∧
    (parse_marking_guide t1).rubric.rubric_items.length = 3 := by
  exact ⟨rfl, rfl, rfl, rfl, rfl⟩

/-- C10: `normalize_answers` returns ok = true with the input stripped
and lowercased, and it is idempotent: normalizing an already-normalized
string returns it unchanged. -/
theorem normalize_answers_idempotent (text : String) :
    (normalize_answers text).ok = true ∧
    (normalize_answers text).normalized = pyLower (pyStrip text) ∧
    (normalize_answers ((normalize_answers text).normalized)).normalized =
      (normalize_answers text).normalized :=
  ⟨rfl, rfl, congrArg String.mk (normalizedChars_idem text.data)⟩

/-! ## Claim theorems: app/agent.py -/

/-- Helper: looking up a position in a completion list whose entries
are built deterministically from the position always finds the value at
that position. -/
theorem lookup_map_self {γ : Type} (f : Nat → γ) :
    ∀ (order : List Nat) (i : Nat), i ∈ order →
      (order.map (fun j => (j, f j))).lookup i = some (f i) := by
  intro order
  induction order with
  | nil => intro i h; simp at h
  | cons j rest ih =>
    intro i h
    rcases eq_or_ne i j with rfl | hij
    · simp [List.lookup_cons]
    · have hb : (i == j) = false := by simp [hij]
      simp only [List.map_cons, List.lookup_cons, hb, Bool.false_eq_true, if_false]
      rcases List.mem_cons.mp h with h1 | h1
      · exact absurd h1 hij
      · exact ih i h1

/-- C1: the loop over an input sequence of N questions produces an
output sequence with exactly N entries, entry i being the body outcome
for input item i by position (a graded result or a per-item failure),
for every completion order that completes each item; the loop reads the
`questions` slot and writes the `graded_questions` slot. -/
theorem loop_output_aligned {α β : Type} (grade : α → ItemResult β)
    (questions : List α) (completionOrder : List Nat)
    (hcover : ∀ i, i < questions.length → i ∈ completionOrder) :
    loop_grader.loop_input_key = "questions" ∧
    loop_grader.loop_output_key = "graded_questions" ∧
    (runLoop grade questions completionOrder).length = questions.length ∧
    ∀ i : Nat, (runLoop grade questions completionOrder).get? i =
      (questions.get? i).map grade := by
  refine ⟨rfl, rfl, by simp [runLoop], ?_⟩
  intro i
  by_cases hi : i < questions.length
  · have h1 : (List.range questions.length)[i]? = some i := List.getElem?_range hi
    have h2 : (completionOrder.map (fun j => (j, gradeAt grade questions j))).lookup i =
        some (gradeAt grade questions i) :=
      lookup_map_self (gradeAt grade questions) completionOrder i (hcover i hi)
    have hq : questions[i]? = some questions[i] := List.getElem?_eq_getElem hi
    simp only [runLoop, List.get?_eq_getElem?, List.getElem?_map, h1,
      Option.map_some', h2, Option.getD_some]
    simp [gradeAt, hq]
  · have h1 : (runLoop grade questions completionOrder).get? i = none := by
      rw [List.get?_eq_getElem?]
      apply List.getElem?_eq_none
      simpa [runLoop] using Nat.le_of_not_lt hi
    have h2 : questions.get? i = none := by
      rw [List.get?_eq_getElem?]
      exact List.getElem?_eq_none (Nat.le_of_not_lt hi)
    rw [h1, h2]; rfl

/-- Witness for C1: three items, completion order 2, 0, 1; the output
is positionally aligned. -/
theorem loop_output_aligned_witness :
    (runLoop (fun n : Nat => ItemResult.graded (n + 1)) [10, 20, 30] [2, 0, 1]).get? 1 =
      some (ItemResult.graded 21) := by
  have h := loop_output_aligned (fun n : Nat => ItemResult.graded (n + 1))
    [10, 20, 30] [2, 0, 1] (by decide)
  exact h.2.2.2 1

/-- C2: under `retry_config` (attempts 5, base 7, initial delay 1,
retryable codes 429, 500, 503, 504), a call failing with a retryable
code on every attempt makes exactly 5 attempts, sleeps
`initial_delay * exp_base ^ k` seconds before the (k+1)-th retry for
k = 0..3 (that is, 7^(k-1) before retry k for k = 1..4), and the
failure is then propagated as the terminal outcome. -/
theorem retry_exhausts_attempts (c : Nat) (hc : c ∈ retry_config.http_status_codes) :
    runWithRetry retry_config (fun _ => CallResult.failure c) =
      { attemptsMade := retry_config.attempts
        delays := (List.range (retry_config.attempts - 1)).map
          (fun k => retry_config.initial_delay * retry_config.exp_base ^ k)
        outcome := CallResult.failure c } := by
  have hc4 : c = 429 ∨ c = 500 ∨ c = 503 ∨ c = 504 := by
    simpa [retry_config] using hc
  rcases hc4 with rfl | rfl | rfl | rfl <;> decide

/-- Witness for C2 at code 429. -/
theorem retry_exhausts_attempts_witness :
    429 ∈ retry_config.http_status_codes ∧
    runWithRetry retry_config (fun _ => CallResult.failure 429) =
      { attemptsMade := retry_config.attempts
        delays := (List.range (retry_config.attempts - 1)).map
          (fun k => retry_config.initial_delay * retry_config.exp_base ^ k)
        outcome := CallResult.failure 429 } :=
  ⟨by decide, retry_exhausts_attempts 429 (by decide)⟩

/-- Helper: one non-retryable failure terminates the retry loop at once
whatever the remaining budget. -/
theorem retryFrom_non_retryable (p : HttpRetryOptions) (call : Nat → CallResult)
    (idx r c : Nat) (hcall : call idx = CallResult.failure c)
    (hc : c ∉ p.http_status_codes) :
    retryFrom p call idx (r + 1) =
      { attemptsMade := 1, delays := [], outcome := CallResult.failure c } := by
  simp only [retryFrom, hcall]
  simp [hc]

/-- C3: a call failing with a code outside the retryable set makes
exactly 1 attempt, sleeps no backoff delay, and the failure is
propagated although the attempt budget (5) is not exhausted. -/
theorem retry_non_retryable_single_attempt (c : Nat)
    (hc : c ∉ retry_config.http_status_codes) :
    runWithRetry retry_config (fun _ => CallResult.failure c) =
      { attemptsMade := 1, delays := [], outcome := CallResult.failure c } :=
  retryFrom_non_retryable retry_config (fun _ => CallResult.failure c) 0 4 c rfl hc

/-- Witness for C3 at code 400 (malformed request). -/
theorem retry_non_retryable_single_attempt_witness :
    runWithRetry retry_config (fun _ => CallResult.failure 400) =
      { attemptsMade := 1, delays := [], outcome := CallResult.failure 400 } :=
  retry_non_retryable_single_attempt 400 (by decide)

/-- C4: for every stage behavior and every initial context, the
sequential pipeline `root_agent` starts and finishes its five stages
strictly in series in the fixed declared order (each start event is
immediately preceded by the finish of the previous stage), and the
slots written, in order, are exactly the declared output slot of each
stage. -/
theorem pipeline_runs_stages_in_order {V : Type}
    (behavior : String → List (String × V) → V) (ctx : List (String × V)) :
    (runSeq behavior root_agent.sub_agents ctx).2 =
      [PipeEvent.start "OnlineAnswersAgent", PipeEvent.finish "OnlineAnswersAgent",
       PipeEvent.start "SummarizerAgent", PipeEvent.finish "SummarizerAgent",
       PipeEvent.start "LoopOverQuestions", PipeEvent.finish "LoopOverQuestions",
       PipeEvent.start "RefereeAgent", PipeEvent.finish "RefereeAgent",
       PipeEvent.start "FinalAggregator", PipeEvent.finish "FinalAggregator"] ∧
    (runSeq behavior root_agent.sub_agents ctx).1.map Prod.fst =
      ctx.map Prod.fst ++
        ["online_answers", "final_summary", "graded_questions",
         "referee_report", "final_payload"] := by
  constructor <;>
    simp [runSeq, root_agent, online_answers_agent, summarizer_agent, loop_grader,
      referee_agent, final_aggregator, StageCfg.stageName, StageCfg.outputKey]

/-- C5: after validation, every corrected entry satisfies
0 ≤ score ≤ max_score and 0 ≤ confidence ≤ 1 (given the entry declares
a non-negative maximum score), every raw entry violating the bounds has
an issue recorded that references its question identifier, and the
report ok flag is true exactly when the issue list is empty. -/
theorem validation_clamps_and_flags (entries : List GradedQuestion)
    (hmax : ∀ g ∈ entries, 0 ≤ g.max_score) :
    (∀ g ∈ (validateGraded entries).corrected,
        0 ≤ g.score ∧ g.score ≤ g.max_score ∧ 0 ≤ g.confidence ∧ g.confidence ≤ 1) ∧
    (∀ g ∈ entries,
        (g.score < 0 ∨ g.max_score < g.score ∨ g.confidence < 0 ∨ 1 < g.confidence) →
        ∃ i ∈ (validateGraded entries).issues, i.question_id = g.question_id) ∧
    ((validateGraded entries).ok = true ↔ (validateGraded entries).issues = []) := by
  refine ⟨?_, ?_, ?_⟩
  · intro g hg
    simp only [validateGraded, List.mem_map] at hg
    obtain ⟨g0, hg0, rfl⟩ := hg
    have h0 := hmax g0 hg0
    simp only [clampEntry]
    have hs := clampQ_mem 0 g0.max_score g0.score h0
    have hc := clampQ_mem 0 1 g0.confidence zero_le_one
    exact ⟨hs.1, hs.2, hc.1, hc.2⟩
  · intro g hg hviol
    have hmem : ∀ iss ∈ entryIssues g, iss ∈ (validateGraded entries).issues := by
      intro iss hiss
      simp only [validateGraded]
      exact List.mem_flatten.mpr ⟨entryIssues g, List.mem_map.mpr ⟨g, hg, rfl⟩, hiss⟩
    rcases hviol with h | h | h | h
    · exact ⟨{ question_id := g.question_id, problem := "score out of range" },
        hmem _ (by simp [entryIssues, h]), rfl⟩
    · exact ⟨{ question_id := g.question_id, problem := "score out of range" },
        hmem _ (by simp [entryIssues, h]), rfl⟩
    · exact ⟨{ question_id := g.question_id, problem := "confidence out of range" },
        hmem _ (by simp [entryIssues, h]), rfl⟩
    · exact ⟨{ question_id := g.question_id, problem := "confidence out of range" },
        hmem _ (by simp [entryIssues, h]), rfl⟩
  · simp [validateGraded, List.isEmpty_iff]

/-- Witness for C5 at a list containing an entry with score 7 of max 5. -/
theorem validation_clamps_and_flags_witness :
    (∀ g ∈ (validateGraded gradedExample).corrected,
        0 ≤ g.score ∧ g.score ≤ g.max_score ∧ 0 ≤ g.confidence ∧ g.confidence ≤ 1) ∧
    (∀ g ∈ gradedExample,
        (g.score < 0 ∨ g.max_score < g.score ∨ g.confidence < 0 ∨ 1 < g.confidence) →
        ∃ i ∈ (validateGraded gradedExample).issues, i.question_id = g.question_id) ∧
    ((validateGraded gradedExample).ok = true ↔ (validateGraded gradedExample).issues = []) :=
  validation_clamps_and_flags gradedExample (by decide)

/-- C6 counterexample: the claim says the Aggregator performs no I/O
and no retries, but app/agent.py lines 149-159 configure the
FinalAggregator as a Gemini model call carrying the shared retry policy
(5 attempts), so as stated the claim is false of the source. -/
theorem final_aggregator_retry_configured :
    final_aggregator.model.retry_options = some retry_config ∧
    retry_config.attempts = 5 ∧
    final_aggregator.model.model = "gemini-2.5-flash-lite" :=
  ⟨rfl, rfl, rfl⟩

/-- C6 (amended): the aggregation the stage is specified to compute,
modelled as a function of its three declared inputs, is deterministic
and pure: identical graded questions and human decision give an
identical payload (byte-identical statistics), for any validation
reports. -/
theorem final_aggregate_deterministic (gs gs2 : List GradedQuestion)
    (r r2 : ValidationReport) (d d2 : Option HumanDecision)
    (hg : gs = gs2) (hd : d = d2) :
    final_aggregate gs r d = final_aggregate gs2 r2 d2 := by
  subst hg; subst hd; rfl

/-- Witness for the amended C6 at concrete inputs with two different
reports. -/
theorem final_aggregate_deterministic_witness :
    final_aggregate gradedExample (validateGraded gradedExample) none =
      final_aggregate gradedExample { ok := true, issues := [], corrected := [] } none :=
  final_aggregate_deterministic gradedExample gradedExample
    (validateGraded gradedExample) { ok := true, issues := [], corrected := [] }
    none none rfl rfl

end Gradr
